import Mathlib

/-!
Verification development for the routingv8 client (here-go repository).

The Go source under verification is src/routingv8/response.go, which holds
the typed response data model with a custom decoder for the open `ErrorCodes`
enumeration, and the `RoutingService.Routes` adapter operation.

Modelling conventions:
- JSON wire values are modelled by the inductive `JValue`.  Numbers are
  modelled by their rational value (the textual distinction between the
  literals `1` and `1.0` is not represented); Go's `encoding/json` decodes a
  number into an integer target only when its value is integral and within
  the target's machine range, which is what `decodeGoInt` / `decodeGoInt32`
  implement.  Go `int` is taken at its 64-bit size.
- Fallible decoding is `Except String`; a Go method that mutates its
  receiver is modelled by explicit state passing.
- Go's `encoding/json` field matching (exact key match preferred, then a
  case-insensitive match) is `lookupField`; an absent or `null` field leaves
  the target at its zero value.
- `float64` values are modelled by `Rat` (no claim here exercises binary
  rounding); `time.Time` is modelled by its wire string, RFC3339 validation
  abstracted since no claim feeds a timestamp.
-/

/-- A JSON value.  Numbers are modelled by their rational value. -/
inductive JValue : Type where
  | null : JValue
  | bool : Bool → JValue
  | num : Rat → JValue
  | str : String → JValue
  | arr : List JValue → JValue
  | obj : List (String × JValue) → JValue

/-- Exact-key lookup among a JSON object's fields (first occurrence). -/
def lookupExact (fs : List (String × JValue)) (k : String) : Option JValue :=
  match fs with
  | [] => none
  | (k', v) :: rest => if k' = k then some v else lookupExact rest k

/-- ASCII lower-casing of one character (all wire field names here are
ASCII, so this captures Go's case folding on them). -/
def charToLower (c : Char) : Char :=
  if 65 ≤ c.toNat ∧ c.toNat ≤ 90 then Char.ofNat (c.toNat + 32) else c

/-- ASCII lower-casing of a string. -/
def strToLower (s : String) : String :=
  String.mk (s.toList.map charToLower)

/-- Case-insensitive key lookup among a JSON object's fields. -/
def lookupCI (fs : List (String × JValue)) (k : String) : Option JValue :=
  match fs with
  | [] => none
  | (k', v) :: rest =>
    if strToLower k' = strToLower k then some v else lookupCI rest k

/-- Go encoding/json key matching: an exact match is preferred, otherwise a
case-insensitive match is accepted. -/
def lookupField (fs : List (String × JValue)) (k : String) : Option JValue :=
  match lookupExact fs k with
  | some v => some v
  | none => lookupCI fs k

def int64Min : Int := -9223372036854775808
def int64Max : Int := 9223372036854775807
def int32Min : Int := -2147483648
def int32Max : Int := 2147483647

/-- Go encoding/json decoding of one value into an `int` (64-bit): a JSON
null is a no-op leaving the zero value, an integral in-range number is
accepted, everything else is an error. -/
def decodeGoInt (v : JValue) : Except String Int :=
  match v with
  | .null => .ok 0
  | .num n =>
    if n.den = 1 then
      if int64Min ≤ n.num ∧ n.num ≤ int64Max then .ok n.num
      else .error "json: cannot unmarshal number out of range into int"
    else .error "json: cannot unmarshal non-integral number into int"
  | .bool _ => .error "json: cannot unmarshal bool into int"
  | .str _ => .error "json: cannot unmarshal string into int"
  | .arr _ => .error "json: cannot unmarshal array into int"
  | .obj _ => .error "json: cannot unmarshal object into int"

/-- Go encoding/json decoding of one value into an `int32`. -/
def decodeGoInt32 (v : JValue) : Except String Int :=
  match v with
  | .null => .ok 0
  | .num n =>
    if n.den = 1 then
      if int32Min ≤ n.num ∧ n.num ≤ int32Max then .ok n.num
      else .error "json: cannot unmarshal number out of range into int32"
    else .error "json: cannot unmarshal non-integral number into int32"
  | .bool _ => .error "json: cannot unmarshal bool into int32"
  | .str _ => .error "json: cannot unmarshal string into int32"
  | .arr _ => .error "json: cannot unmarshal array into int32"
  | .obj _ => .error "json: cannot unmarshal object into int32"

/-- Go encoding/json decoding of one value into a `string`. -/
def decodeGoString (v : JValue) : Except String String :=
  match v with
  | .null => .ok ""
  | .str s => .ok s
  | _ => .error "json: cannot unmarshal value into string"

/-- Go encoding/json decoding of one value into a `float64` (value modelled
by a rational; binary rounding is not exercised by any claim). -/
def decodeGoFloat (v : JValue) : Except String Rat :=
  match v with
  | .null => .ok 0
  | .num n => .ok n
  | _ => .error "json: cannot unmarshal value into float64"

/-- Effectful map over a list in the `Except` monad, processing elements in
order and returning the first error, as Go's array decoding loop does. -/
def mapME {α β : Type} (f : α → Except String β) : List α → Except String (List β)
  | [] => .ok []
  | x :: xs => do
    let y ← f x
    let ys ← mapME f xs
    return y :: ys

/-- Go `json.Unmarshal` of a value into a `[]int` that starts out empty:
null is a no-op (the slice stays empty), an array decodes element-wise in
order, anything else is an error. -/
def decodeGoIntArray (v : JValue) : Except String (List Int) :=
  match v with
  | .null => .ok []
  | .arr xs => mapME decodeGoInt xs
  | _ => .error "json: cannot unmarshal value into int slice"

/-- True exactly when the `Except` computation succeeded. -/
def isOkE {α : Type} (e : Except String α) : Bool :=
  match e with
  | .ok _ => true
  | .error _ => false

/-- `type ErrorCode int` from response.go. -/
structure ErrorCode where
  val : Int
deriving DecidableEq

def ErrorCodeSuccess : ErrorCode := ⟨0⟩
def ErrorCodeDisconnected : ErrorCode := ⟨1⟩
def ErrorCodeMatchingFailed : ErrorCode := ⟨2⟩
def ErrorCodeParameterViolation : ErrorCode := ⟨3⟩
def ErrorCodeUnknown : ErrorCode := ⟨99⟩

/-- `type ErrorCodes []ErrorCode` from response.go. -/
def ErrorCodes : Type := List ErrorCode

instance : DecidableEq ErrorCodes :=
  inferInstanceAs (DecidableEq (List ErrorCode))

/-- The stateful view of `ErrorCodes.UnmarshalJSON` from response.go: the
receiver is passed in, and the pair returned is the receiver's value after
the call together with the returned error (if any).  The source parses the
bytes into a fresh `[]int`, and only on success converts each integer in
order into an `ErrorCode` and assigns the result to the receiver. -/
def ErrorCodes.unmarshalJSONInto (e : ErrorCodes) (b : JValue) :
    ErrorCodes × Option String :=
  match decodeGoIntArray b with
  | .error err => (e, some err)
  | .ok errorCodes => (errorCodes.map fun n => ⟨n⟩, none)

/-- The functional view of `ErrorCodes.UnmarshalJSON` from response.go,
applied to a fresh receiver: parse the wire value as a sequence of plain
integers, then reinterpret each integer positionally as an `ErrorCode`. -/
def ErrorCodes.unmarshalJSON (b : JValue) : Except String ErrorCodes :=
  match decodeGoIntArray b with
  | .error err => .error err
  | .ok errorCodes => .ok (errorCodes.map fun n => ⟨n⟩)

/-- Decoding of one named struct field: an absent field or a JSON null
leaves the Go zero value `z`; a present field decodes with `dec`. -/
def decodeField {α : Type} (dec : JValue → Except String α) (z : α)
    (fs : List (String × JValue)) (k : String) : Except String α :=
  match lookupField fs k with
  | none => .ok z
  | some .null => .ok z
  | some v => dec v

/-- Go decoding of a value into a slice: null leaves nil, an array decodes
element-wise in order, anything else errors. -/
def decodeList {α : Type} (dec : JValue → Except String α) (v : JValue) :
    Except String (List α) :=
  match v with
  | .null => .ok []
  | .arr xs => mapME dec xs
  | _ => .error "json: cannot unmarshal value into slice"

/-- Modelled from the spec: `GeoWaypoint` is defined outside
src/routingv8/response.go; the spec describes it as a geocoordinate with
latitude and longitude, used on the wire as `lat`/`long` number fields.
Coordinates (Go float64) are modelled by rationals. -/
structure GeoWaypoint where
  lat : Rat
  long : Rat
deriving DecidableEq

def GeoWaypoint.zero : GeoWaypoint := ⟨0, 0⟩

/-- Modelled from the spec: structural decode of a `GeoWaypoint`. -/
def decodeGeoWaypoint (v : JValue) : Except String GeoWaypoint :=
  match v with
  | .null => .ok GeoWaypoint.zero
  | .obj fs => do
    let la ← decodeField decodeGoFloat 0 fs "lat"
    let lo ← decodeField decodeGoFloat 0 fs "long"
    return ⟨la, lo⟩
  | _ => .error "json: cannot unmarshal value into GeoWaypoint"

/-- Model of Go `time.Time` by its wire (RFC3339) string; format validation
is abstracted since no claim feeds a timestamp value. -/
structure GoTime where
  rep : String
deriving DecidableEq

def GoTime.zero : GoTime := ⟨""⟩

def decodeGoTime (v : JValue) : Except String GoTime :=
  match v with
  | .null => .ok GoTime.zero
  | .str s => .ok ⟨s⟩
  | _ => .error "json: cannot unmarshal value into time.Time"

/-- `Price` from response.go. -/
structure Price where
  type : String
  currency : String
  value : Rat
deriving DecidableEq

def Price.zero : Price := ⟨"", "", 0⟩

def decodePrice (v : JValue) : Except String Price :=
  match v with
  | .null => .ok Price.zero
  | .obj fs => do
    let t ← decodeField decodeGoString "" fs "type"
    let c ← decodeField decodeGoString "" fs "currency"
    let va ← decodeField decodeGoFloat 0 fs "value"
    return ⟨t, c, va⟩
  | _ => .error "json: cannot unmarshal value into Price"

/-- `Fare` from response.go. -/
structure Fare where
  id : String
  name : String
  price : Price
  convertedPrice : Price
  reason : String
  paymentMethods : List String
deriving DecidableEq

def Fare.zero : Fare := ⟨"", "", Price.zero, Price.zero, "", []⟩

def decodeFare (v : JValue) : Except String Fare :=
  match v with
  | .null => .ok Fare.zero
  | .obj fs => do
    let i ← decodeField decodeGoString "" fs "id"
    let n ← decodeField decodeGoString "" fs "name"
    let p ← decodeField decodePrice Price.zero fs "price"
    let cp ← decodeField decodePrice Price.zero fs "convertedPrice"
    let r ← decodeField decodeGoString "" fs "reason"
    let pm ← decodeField (decodeList decodeGoString) [] fs "paymentMethods"
    return ⟨i, n, p, cp, r, pm⟩
  | _ => .error "json: cannot unmarshal value into Fare"

/-- `TollCollectionLocation` from response.go. -/
structure TollCollectionLocation where
  name : String
  location : GeoWaypoint
deriving DecidableEq

def TollCollectionLocation.zero : TollCollectionLocation := ⟨"", GeoWaypoint.zero⟩

def decodeTollCollectionLocation (v : JValue) : Except String TollCollectionLocation :=
  match v with
  | .null => .ok TollCollectionLocation.zero
  | .obj fs => do
    let n ← decodeField decodeGoString "" fs "name"
    let l ← decodeField decodeGeoWaypoint GeoWaypoint.zero fs "location"
    return ⟨n, l⟩
  | _ => .error "json: cannot unmarshal value into TollCollectionLocation"

/-- `Toll` from response.go. -/
structure Toll where
  countryCode : String
  tollSystemRef : Int
  tollSystem : String
  fares : List Fare
  tollCollectionLocations : List TollCollectionLocation
deriving DecidableEq

def Toll.zero : Toll := ⟨"", 0, "", [], []⟩

def decodeToll (v : JValue) : Except String Toll :=
  match v with
  | .null => .ok Toll.zero
  | .obj fs => do
    let cc ← decodeField decodeGoString "" fs "countryCode"
    let tr ← decodeField decodeGoInt 0 fs "tollSystemRef"
    let ts ← decodeField decodeGoString "" fs "tollSystem"
    let fa ← decodeField (decodeList decodeFare) [] fs "fares"
    let tl ← decodeField (decodeList decodeTollCollectionLocation) [] fs "tollCollectionLocations"
    return ⟨cc, tr, ts, fa, tl⟩
  | _ => .error "json: cannot unmarshal value into Toll"

/-- `TollSystem` from response.go. -/
structure TollSystem where
  id : Int
  name : String
  languageCode : String
deriving DecidableEq

def TollSystem.zero : TollSystem := ⟨0, "", ""⟩

def decodeTollSystem (v : JValue) : Except String TollSystem :=
  match v with
  | .null => .ok TollSystem.zero
  | .obj fs => do
    let i ← decodeField decodeGoInt 0 fs "id"
    let n ← decodeField decodeGoString "" fs "name"
    let lc ← decodeField decodeGoString "" fs "languageCode"
    return ⟨i, n, lc⟩
  | _ => .error "json: cannot unmarshal value into TollSystem"

/-- `NoticeDetail` from response.go. -/
structure NoticeDetail where
  type : String
  cause : String
  maxGrossWeight : Int
deriving DecidableEq

def NoticeDetail.zero : NoticeDetail := ⟨"", "", 0⟩

def decodeNoticeDetail (v : JValue) : Except String NoticeDetail :=
  match v with
  | .null => .ok NoticeDetail.zero
  | .obj fs => do
    let t ← decodeField decodeGoString "" fs "type"
    let c ← decodeField decodeGoString "" fs "cause"
    let w ← decodeField decodeGoInt 0 fs "maxGrossWeight"
    return ⟨t, c, w⟩
  | _ => .error "json: cannot unmarshal value into NoticeDetail"

/-- `Notice` from response.go.  The struct tag on `Details` is misspelled in
the source (`jsopn:"details"`), so encoding/json falls back to matching the
Go field name `Details` for this field. -/
structure Notice where
  title : String
  code : String
  severity : String
  details : List NoticeDetail
deriving DecidableEq

def Notice.zero : Notice := ⟨"", "", "", []⟩

def decodeNotice (v : JValue) : Except String Notice :=
  match v with
  | .null => .ok Notice.zero
  | .obj fs => do
    let t ← decodeField decodeGoString "" fs "title"
    let c ← decodeField decodeGoString "" fs "code"
    let s ← decodeField decodeGoString "" fs "severity"
    let d ← decodeField (decodeList decodeNoticeDetail) [] fs "Details"
    return ⟨t, c, s, d⟩
  | _ => .error "json: cannot unmarshal value into Notice"

/-- Go encoding of a `NoticeDetail` by `encoding/json`. -/
def encodeNoticeDetail (d : NoticeDetail) : JValue :=
  .obj [("type", .str d.type), ("cause", .str d.cause),
        ("maxGrossWeight", .num d.maxGrossWeight)]

/-- Go encoding of a `Notice` by `encoding/json`: because the `Details`
struct tag key is misspelled (`jsopn`), the emitted key is the Go field
name `Details`, not `details`. -/
def encodeNotice (n : Notice) : JValue :=
  .obj [("title", .str n.title), ("code", .str n.code),
        ("severity", .str n.severity),
        ("Details", .arr (n.details.map encodeNoticeDetail))]

/-- `Transport` from response.go. -/
structure Transport where
  mode : String
deriving DecidableEq

def Transport.zero : Transport := ⟨""⟩

def decodeTransport (v : JValue) : Except String Transport :=
  match v with
  | .null => .ok Transport.zero
  | .obj fs => do
    let m ← decodeField decodeGoString "" fs "mode"
    return ⟨m⟩
  | _ => .error "json: cannot unmarshal value into Transport"

/-- `Incident` from response.go. -/
structure Incident where
  type : String
  criticality : String
  validFrom : GoTime
  validUntil : GoTime
  description : String
deriving DecidableEq

def Incident.zero : Incident := ⟨"", "", GoTime.zero, GoTime.zero, ""⟩

def decodeIncident (v : JValue) : Except String Incident :=
  match v with
  | .null => .ok Incident.zero
  | .obj fs => do
    let t ← decodeField decodeGoString "" fs "type"
    let c ← decodeField decodeGoString "" fs "criticality"
    let vf ← decodeField decodeGoTime GoTime.zero fs "validFrom"
    let vu ← decodeField decodeGoTime GoTime.zero fs "validUntil"
    let d ← decodeField decodeGoString "" fs "description"
    return ⟨t, c, vf, vu, d⟩
  | _ => .error "json: cannot unmarshal value into Incident"

/-- `Place` from response.go. -/
structure Place where
  type : String
  location : GeoWaypoint
  originalLocation : GeoWaypoint
deriving DecidableEq

def Place.zero : Place := ⟨"", GeoWaypoint.zero, GeoWaypoint.zero⟩

def decodePlace (v : JValue) : Except String Place :=
  match v with
  | .null => .ok Place.zero
  | .obj fs => do
    let t ← decodeField decodeGoString "" fs "type"
    let l ← decodeField decodeGeoWaypoint GeoWaypoint.zero fs "location"
    let ol ← decodeField decodeGeoWaypoint GeoWaypoint.zero fs "originalLocation"
    return ⟨t, l, ol⟩
  | _ => .error "json: cannot unmarshal value into Place"

/-- `RoutePlace` from response.go. -/
structure RoutePlace where
  time : GoTime
  place : Place
deriving DecidableEq

def RoutePlace.zero : RoutePlace := ⟨GoTime.zero, Place.zero⟩

def decodeRoutePlace (v : JValue) : Except String RoutePlace :=
  match v with
  | .null => .ok RoutePlace.zero
  | .obj fs => do
    let t ← decodeField decodeGoTime GoTime.zero fs "time"
    let p ← decodeField decodePlace Place.zero fs "place"
    return ⟨t, p⟩
  | _ => .error "json: cannot unmarshal value into RoutePlace"

/-- `Span` from response.go. -/
structure Span where
  offset : Int
  length : Int
  duration : Int
  speedLimit : Rat
deriving DecidableEq

def Span.zero : Span := ⟨0, 0, 0, 0⟩

def decodeSpan (v : JValue) : Except String Span :=
  match v with
  | .null => .ok Span.zero
  | .obj fs => do
    let o ← decodeField decodeGoInt 0 fs "offset"
    let l ← decodeField decodeGoInt 0 fs "length"
    let d ← decodeField decodeGoInt 0 fs "duration"
    let sl ← decodeField decodeGoFloat 0 fs "speedLimit"
    return ⟨o, l, d, sl⟩
  | _ => .error "json: cannot unmarshal value into Span"

/-- `Summary` from response.go (all fields are Go int32). -/
structure Summary where
  duration : Int
  length : Int
  baseDuration : Int
deriving DecidableEq

def Summary.zero : Summary := ⟨0, 0, 0⟩

def decodeSummary (v : JValue) : Except String Summary :=
  match v with
  | .null => .ok Summary.zero
  | .obj fs => do
    let d ← decodeField decodeGoInt32 0 fs "duration"
    let l ← decodeField decodeGoInt32 0 fs "length"
    let b ← decodeField decodeGoInt32 0 fs "baseDuration"
    return ⟨d, l, b⟩
  | _ => .error "json: cannot unmarshal value into Summary"

/-- `Section` from response.go. -/
structure Section where
  id : String
  type : String
  departure : RoutePlace
  arrival : RoutePlace
  summary : Summary
  travelSummary : Summary
  polyline : String
  spans : List Span
  notices : List Notice
  language : String
  transport : Transport
  incidents : List Incident
  tolls : List Toll
  tollSystems : List TollSystem
deriving DecidableEq

def Section.zero : Section :=
  ⟨"", "", RoutePlace.zero, RoutePlace.zero, Summary.zero, Summary.zero,
   "", [], [], "", Transport.zero, [], [], []⟩

def decodeSection (v : JValue) : Except String Section :=
  match v with
  | .null => .ok Section.zero
  | .obj fs => do
    let i ← decodeField decodeGoString "" fs "id"
    let t ← decodeField decodeGoString "" fs "type"
    let dep ← decodeField decodeRoutePlace RoutePlace.zero fs "departure"
    let arr ← decodeField decodeRoutePlace RoutePlace.zero fs "arrival"
    let su ← decodeField decodeSummary Summary.zero fs "summary"
    let ts ← decodeField decodeSummary Summary.zero fs "travelSummary"
    let po ← decodeField decodeGoString "" fs "polyline"
    let sp ← decodeField (decodeList decodeSpan) [] fs "spans"
    let no ← decodeField (decodeList decodeNotice) [] fs "notices"
    let la ← decodeField decodeGoString "" fs "language"
    let tr ← decodeField decodeTransport Transport.zero fs "transport"
    let inc ← decodeField (decodeList decodeIncident) [] fs "incidents"
    let tol ← decodeField (decodeList decodeToll) [] fs "tolls"
    let tsy ← decodeField (decodeList decodeTollSystem) [] fs "tollSystems"
    return ⟨i, t, dep, arr, su, ts, po, sp, no, la, tr, inc, tol, tsy⟩
  | _ => .error "json: cannot unmarshal value into Section"

/-- `Route` from response.go. -/
structure Route where
  id : String
  sections : List Section
deriving DecidableEq

def Route.zero : Route := ⟨"", []⟩

def decodeRoute (v : JValue) : Except String Route :=
  match v with
  | .null => .ok Route.zero
  | .obj fs => do
    let i ← decodeField decodeGoString "" fs "id"
    let s ← decodeField (decodeList decodeSection) [] fs "sections"
    return ⟨i, s⟩
  | _ => .error "json: cannot unmarshal value into Route"

/-- Decoding of an `ErrorCodes`-typed struct field: because `ErrorCodes`
implements `json.Unmarshaler`, an absent field leaves the zero value while
a present field (null included) is handed to `ErrorCodes.UnmarshalJSON`. -/
def decodeErrorCodesField (fs : List (String × JValue)) (k : String) :
    Except String ErrorCodes :=
  match lookupField fs k with
  | none => .ok []
  | some v => ErrorCodes.unmarshalJSON v

/-- `RoutesResponse` from response.go. -/
structure RoutesResponse where
  routes : List Route
  errorCodes : ErrorCodes
deriving DecidableEq

def RoutesResponse.zero : RoutesResponse := ⟨[], []⟩

def decodeRoutesResponse (v : JValue) : Except String RoutesResponse :=
  match v with
  | .null => .ok RoutesResponse.zero
  | .obj fs => do
    let r ← decodeField (decodeList decodeRoute) [] fs "routes"
    let e ← decodeErrorCodesField fs "errorCodes"
    return ⟨r, e⟩
  | _ => .error "json: cannot unmarshal value into RoutesResponse"

/-- `MatrixResponse` from response.go. -/
structure MatrixResponse where
  numOrigins : Int
  numDestinations : Int
  travelTimes : List Int
  distances : List Int
  errorCodes : ErrorCodes
deriving DecidableEq

def MatrixResponse.zero : MatrixResponse := ⟨0, 0, [], [], []⟩

def decodeMatrixResponse (v : JValue) : Except String MatrixResponse :=
  match v with
  | .null => .ok MatrixResponse.zero
  | .obj fs => do
    let no ← decodeField decodeGoInt 0 fs "numOrigins"
    let nd ← decodeField decodeGoInt 0 fs "numDestinations"
    let tt ← decodeField (decodeList decodeGoInt32) [] fs "travelTimes"
    let di ← decodeField (decodeList decodeGoInt32) [] fs "distances"
    let e ← decodeErrorCodesField fs "errorCodes"
    return ⟨no, nd, tt, di, e⟩
  | _ => .error "json: cannot unmarshal value into MatrixResponse"

/-- Modelled from the spec: `RegionDefinition` is defined outside
src/routingv8/response.go and is opaque to this core; its wire value is
kept verbatim. -/
structure RegionDefinition where
  raw : JValue

def RegionDefinition.zero : RegionDefinition := ⟨.null⟩

def decodeRegionDefinition (v : JValue) : Except String RegionDefinition :=
  .ok ⟨v⟩

/-- `CalculateMatrixResponse` from response.go. -/
structure CalculateMatrixResponse where
  matrixId : String
  matrix : MatrixResponse
  regionDefinition : RegionDefinition

def CalculateMatrixResponse.zero : CalculateMatrixResponse :=
  ⟨"", MatrixResponse.zero, RegionDefinition.zero⟩

def decodeCalculateMatrixResponse (v : JValue) : Except String CalculateMatrixResponse :=
  match v with
  | .null => .ok CalculateMatrixResponse.zero
  | .obj fs => do
    let mi ← decodeField decodeGoString "" fs "matrixId"
    let m ← decodeField decodeMatrixResponse MatrixResponse.zero fs "matrix"
    let rd ← decodeField decodeRegionDefinition RegionDefinition.zero fs "regionDefinition"
    return ⟨mi, m, rd⟩
  | _ => .error "json: cannot unmarshal value into CalculateMatrixResponse"

/-- `HereErrorResponse` from response.go. -/
structure HereErrorResponse where
  title : String
  status : Int
  code : String
  cause : String
  action : String
deriving DecidableEq

def HereErrorResponse.zero : HereErrorResponse := ⟨"", 0, "", "", ""⟩

def decodeHereErrorResponse (v : JValue) : Except String HereErrorResponse :=
  match v with
  | .null => .ok HereErrorResponse.zero
  | .obj fs => do
    let t ← decodeField decodeGoString "" fs "title"
    let st ← decodeField decodeGoInt 0 fs "status"
    let c ← decodeField decodeGoString "" fs "code"
    let ca ← decodeField decodeGoString "" fs "cause"
    let a ← decodeField decodeGoString "" fs "action"
    return ⟨t, st, c, ca, a⟩
  | _ => .error "json: cannot unmarshal value into HereErrorResponse"

/-- Decimal digits of the fraction `rem / den` (`rem < den`), produced by
long division with fuel bounding the number of emitted digits. -/
def fracDigits : Nat → Nat → Nat → String
  | 0, _, _ => ""
  | fuel + 1, rem, den =>
    if rem = 0 then ""
    else
      let r10 := rem * 10
      toString (r10 / den) ++ fracDigits fuel (r10 % den) den

/-- Modelled from the spec: the coordinate rendering used by the source's
`fmt.Sprintf` `%v` verb on a float64 — the value's native decimal
representation, with no trailing `.0` on integral values (`1.5` renders as
`1.5` and `3` renders as `3`). -/
def formatGoFloat (q : Rat) : String :=
  let sign := if q.num < 0 then "-" else ""
  let n := q.num.natAbs
  let ip := n / q.den
  let rem := n % q.den
  if rem = 0 then sign ++ toString ip
  else sign ++ toString ip ++ "." ++ fracDigits 17 rem q.den

/-- A hexadecimal digit, uppercase, as Go's URL escaping emits. -/
def hexDigit (n : Nat) : Char :=
  if n < 10 then Char.ofNat (48 + n) else Char.ofNat (55 + n)

/-- Characters Go's `url.QueryEscape` leaves unescaped. -/
def isQueryUnreserved (c : Char) : Bool :=
  c.isAlphanum || c = '-' || c = '_' || c = '.' || c = '~'

/-- Go `url.QueryEscape` (ASCII range; multi-byte UTF-8 encoding is not
exercised by any claim): space becomes `+`, unreserved characters pass
through, everything else becomes a percent-escaped byte. -/
def queryEscape (s : String) : String :=
  String.join (s.toList.map fun c =>
    if c = ' ' then "+"
    else if isQueryUnreserved c then String.mk [c]
    else String.mk ['%', hexDigit (c.toNat / 16), hexDigit (c.toNat % 16)])

/-- Insertion into a key-sorted association list, keeping earlier entries
first among equal keys. -/
def insertByKey (p : String × String) :
    List (String × String) → List (String × String)
  | [] => [p]
  | q :: rest =>
    if p.1 < q.1 then p :: q :: rest else q :: insertByKey p rest

/-- Key-sorting of an association list, as Go's `url.Values.Encode` sorts
parameters by key. -/
def sortByKey : List (String × String) → List (String × String)
  | [] => []
  | p :: rest => insertByKey p (sortByKey rest)

/-- Go `url.Values.Encode`: keys sorted, each pair escaped and written as
`k=v`, pairs joined with ampersands. -/
def encodeQuery (vs : List (String × String)) : String :=
  String.intercalate "&"
    ((sortByKey vs).map fun p => queryEscape p.1 ++ "=" ++ queryEscape p.2)

/-- Modelled from the spec: `TransportMode` is defined outside
src/routingv8/response.go; the spec says it resolves via its string method
to one of a fixed set of tokens, with `"unspecified"` and `"invalid"` as
the sentinel tokens.  The resolved token is carried directly. -/
structure TransportMode where
  token : String
deriving DecidableEq

/-- Modelled from the spec: the `String()` resolution of a transport mode
to its token. -/
def TransportMode.String (m : TransportMode) : String := m.token

/-- Modelled from the spec: the sentinel token for an invalid transport
mode, compared against in `Routes`. -/
def invalid : String := "invalid"

/-- Modelled from the spec: the sentinel token for an unspecified transport
mode, compared against in `Routes`. -/
def unspecified : String := "unspecified"

/-- Modelled from the spec: `RoutesRequest` is defined outside
src/routingv8/response.go; `Routes` reads its transport mode and the
origin/destination coordinates. -/
structure RoutesRequest where
  transportMode : TransportMode
  origin : GeoWaypoint
  destination : GeoWaypoint

/-- The injected transport collaborator with `NewRequest`/`Do` semantics,
over an abstract request type `ρ`.  `Do` fills a `RoutesResponse` or fails
with a transport/decode error. -/
structure Client (ρ : Type) where
  NewRequest : String → String → String → Except String ρ
  Do : ρ → Except String RoutesResponse

/-- The routing service: `urlParse` models `s.URL.Parse` (the `net/url`
reference resolution is abstracted to a fallible function), and `client`
is the injected transport collaborator. -/
structure RoutingService (ρ : Type) where
  urlParse : String → Except String String
  client : Client ρ

/-- One observable call on the transport collaborator. -/
inductive TransportCall where
  | newRequest (url : String) (method : String) (query : String)
  | doCall
deriving DecidableEq

/-- The query value set built by `Routes` in response.go, in the order the
source adds the parameters. -/
def routesQueryValues (tm : String) (req : RoutesRequest) :
    List (String × String) :=
  [("return", "summary,polyline,elevation,actions,instructions,travelSummary,tolls,incidents"),
   ("transportMode", tm),
   ("origin", formatGoFloat req.origin.lat ++ "," ++ formatGoFloat req.origin.long),
   ("destination", formatGoFloat req.destination.lat ++ "," ++ formatGoFloat req.destination.long),
   ("spans", "length,duration,maxSpeed,speedLimit,incidents,notices"),
   ("alternatives", "6"),
   ("currency", "EUR")]

/-- `RoutingService.Routes` from response.go, with the calls made on the
transport collaborator recorded as a trace.  An error result models the Go
`(nil, err)` return: no partial response exists alongside an error. -/
def RoutingService.Routes {ρ : Type} (s : RoutingService ρ) (req : RoutesRequest) :
    Except String RoutesResponse × List TransportCall :=
  let tm := req.transportMode.String
  if tm = invalid ∨ tm = unspecified then
    (.error "invalid transportmode", [])
  else
    match s.urlParse "routes" with
    | .error e => (.error e, [])
    | .ok u =>
      let query := encodeQuery (routesQueryValues tm req)
      match s.client.NewRequest u "GET" query with
      | .error e =>
        (.error ("unable to create get request: " ++ e),
         [.newRequest u "GET" query])
      | .ok r =>
        match s.client.Do r with
        | .error e => (.error e, [.newRequest u "GET" query, .doCall])
        | .ok resp => (.ok resp, [.newRequest u "GET" query, .doCall])

/-- The fields of a JSON object (an empty list for any other value). -/
def jFields (v : JValue) : List (String × JValue) :=
  match v with
  | .obj fs => fs
  | _ => []

theorem exceptBind_ok {α β : Type} (a : α) (f : α → Except String β) :
    (Except.ok a >>= f) = f a := rfl

theorem exceptBind_error {α β : Type} (e : String) (f : α → Except String β) :
    ((Except.error e : Except String α) >>= f) = Except.error e := rfl

theorem decodeGoInt_intCast (n : Int) (h1 : int64Min ≤ n) (h2 : n ≤ int64Max) :
    decodeGoInt (.num (n : Rat)) = .ok n := by
  simp [decodeGoInt, Rat.den_intCast, Rat.num_intCast, h1, h2]

theorem decodeGoInt32_intCast (n : Int) (h1 : int32Min ≤ n) (h2 : n ≤ int32Max) :
    decodeGoInt32 (.num (n : Rat)) = .ok n := by
  simp [decodeGoInt32, Rat.den_intCast, Rat.num_intCast, h1, h2]

/-- The JSON array whose elements are, in order, the integers of `S`. -/
def jIntArr (S : List Int) : List JValue :=
  S.map fun n : Int => JValue.num (n : Rat)

theorem mapME_decodeGoInt (S : List Int)
    (h : ∀ x ∈ S, int64Min ≤ x ∧ x ≤ int64Max) :
    mapME decodeGoInt (jIntArr S) = .ok S := by
  induction S with
  | nil => rfl
  | cons x xs ih =>
    have hx := h x (List.mem_cons_self x xs)
    have hxs := ih fun y hy => h y (List.mem_cons_of_mem x hy)
    show (decodeGoInt (.num (x : Rat)) >>= fun y =>
      mapME decodeGoInt (jIntArr xs) >>= fun ys => pure (y :: ys)) = .ok (x :: xs)
    rw [decodeGoInt_intCast x hx.1 hx.2, exceptBind_ok, hxs, exceptBind_ok]
    rfl

theorem mapME_decodeGoInt32 (S : List Int)
    (h : ∀ x ∈ S, int32Min ≤ x ∧ x ≤ int32Max) :
    mapME decodeGoInt32 (jIntArr S) = .ok S := by
  induction S with
  | nil => rfl
  | cons x xs ih =>
    have hx := h x (List.mem_cons_self x xs)
    have hxs := ih fun y hy => h y (List.mem_cons_of_mem x hy)
    show (decodeGoInt32 (.num (x : Rat)) >>= fun y =>
      mapME decodeGoInt32 (jIntArr xs) >>= fun ys => pure (y :: ys)) = .ok (x :: xs)
    rw [decodeGoInt32_intCast x hx.1 hx.2, exceptBind_ok, hxs, exceptBind_ok]
    rfl

theorem mapME_error_of_mem {α β : Type} (f : α → Except String β)
    (xs : List α) (x : α) (hmem : x ∈ xs) (hbad : isOkE (f x) = false) :
    isOkE (mapME f xs) = false := by
  induction xs with
  | nil => cases hmem
  | cons y ys ih =>
    cases hmem with
    | head =>
      cases hf : f x with
      | error e => simp [mapME, hf, exceptBind_error, isOkE]
      | ok b => rw [hf] at hbad; simp [isOkE] at hbad
    | tail _ hy =>
      cases hf : f y with
      | error e => simp [mapME, hf, exceptBind_error, isOkE]
      | ok b =>
        cases hrest : mapME f ys with
        | error e => simp [mapME, hf, hrest, exceptBind_ok, exceptBind_error, isOkE]
        | ok l =>
          have hcon := ih hy
          rw [hrest] at hcon
          simp [isOkE] at hcon

theorem decodeField_of_absent {α : Type} (dec : JValue → Except String α)
    (z : α) (fs : List (String × JValue)) (k : String)
    (h : lookupField fs k = none) : decodeField dec z fs k = .ok z := by
  simp [decodeField, h]

theorem decodeErrorCodesField_of_absent (fs : List (String × JValue))
    (k : String) (h : lookupField fs k = none) :
    decodeErrorCodesField fs k = .ok [] := by
  simp [decodeErrorCodesField, h]

/-- Claim C1, amended to the integers representable in the 64-bit `int` the
source decodes into: decoding such a sequence S via `ErrorCodes.UnmarshalJSON`
succeeds and produces the `ErrorCode` values whose underlying integers are
exactly S, in order and of the same length, including integers outside the
named constants; reading the integers back recovers S exactly. -/
theorem c1_errorcodes_roundtrip (S : List Int)
    (h : ∀ x ∈ S, int64Min ≤ x ∧ x ≤ int64Max) :
    ErrorCodes.unmarshalJSON (.arr (jIntArr S)) =
      .ok (S.map fun n => (⟨n⟩ : ErrorCode)) ∧
    (S.map fun n => (⟨n⟩ : ErrorCode)).map ErrorCode.val = S := by
  constructor
  · have hd : decodeGoIntArray (.arr (jIntArr S)) = .ok S := mapME_decodeGoInt S h
    unfold ErrorCodes.unmarshalJSON
    rw [hd]
  · have hid : (ErrorCode.val ∘ fun n : Int => (⟨n⟩ : ErrorCode)) = id := rfl
    rw [List.map_map, hid, List.map_id]

/-- Claim C1 witness at the spec's example sequence `[0, 2, 99, 7]`. -/
theorem c1_errorcodes_roundtrip_witness :
    ErrorCodes.unmarshalJSON (.arr (jIntArr [0, 2, 99, 7])) =
      .ok ([0, 2, 99, 7].map fun n => (⟨n⟩ : ErrorCode)) ∧
    ([0, 2, 99, 7].map fun n => (⟨n⟩ : ErrorCode)).map ErrorCode.val =
      [0, 2, 99, 7] :=
  c1_errorcodes_roundtrip [0, 2, 99, 7] (by decide)

/-- Claim C1 counterexample to the unrestricted statement: the integer
2^63 does not fit the 64-bit `int` the source parses into, so decoding the
one-element integer sequence `[2^63]` fails instead of succeeding. -/
theorem c1_errorcodes_roundtrip_cex :
    ErrorCodes.unmarshalJSON (.arr [.num (9223372036854775808 : Rat)]) =
      .error "json: cannot unmarshal number out of range into int" := rfl

/-- Claim C2, amended for JSON null elements (which Go decodes into an
`int` slot as a no-op, yielding 0, rather than rejecting): any element on
which the integer parse fails makes `ErrorCodes.UnmarshalJSON` return the
underlying parse error verbatim, and makes the decode of the whole
enclosing response fail rather than dropping the element. -/
theorem c2_noninteger_element_fails
    (fs : List (String × JValue)) (xs : List JValue) (v : JValue)
    (hmem : v ∈ xs) (hbad : isOkE (decodeGoInt v) = false)
    (hf : lookupField fs "errorCodes" = some (.arr xs)) :
    isOkE (ErrorCodes.unmarshalJSON (.arr xs)) = false ∧
    (∀ err, decodeGoIntArray (.arr xs) = .error err →
      ErrorCodes.unmarshalJSON (.arr xs) = .error err) ∧
    isOkE (decodeRoutesResponse (.obj fs)) = false := by
  have h1 : isOkE (mapME decodeGoInt xs) = false :=
    mapME_error_of_mem decodeGoInt xs v hmem hbad
  obtain ⟨err, herr⟩ : ∃ err, mapME decodeGoInt xs = .error err := by
    cases hm : mapME decodeGoInt xs with
    | error e => exact ⟨e, rfl⟩
    | ok l => rw [hm] at h1; simp [isOkE] at h1
  have hum : ErrorCodes.unmarshalJSON (.arr xs) = .error err := by
    have hd : decodeGoIntArray (.arr xs) = .error err := herr
    unfold ErrorCodes.unmarshalJSON
    rw [hd]
  refine ⟨?_, ?_, ?_⟩
  · rw [hum]; rfl
  · intro err2 herr2
    unfold ErrorCodes.unmarshalJSON
    rw [herr2]
  · have hecf : decodeErrorCodesField fs "errorCodes" = .error err := by
      have tmp : decodeErrorCodesField fs "errorCodes" =
          ErrorCodes.unmarshalJSON (.arr xs) := by
        unfold decodeErrorCodesField
        rw [hf]
      rw [tmp, hum]
    have hdef : decodeRoutesResponse (.obj fs) =
        (decodeField (decodeList decodeRoute) [] fs "routes" >>= fun r =>
         decodeErrorCodesField fs "errorCodes" >>= fun e => pure ⟨r, e⟩) := rfl
    rw [hdef]
    cases hr : decodeField (decodeList decodeRoute) [] fs "routes" with
    | error e => rfl
    | ok r => rw [exceptBind_ok, hecf]; rfl

/-- Claim C2 witness at the spec's example wire value: the array containing
the lone string element "a". -/
theorem c2_noninteger_element_fails_witness :
    isOkE (ErrorCodes.unmarshalJSON (.arr [.str "a"])) = false ∧
    isOkE (decodeRoutesResponse (.obj [("errorCodes", .arr [.str "a"])])) = false :=
  ⟨(c2_noninteger_element_fails [("errorCodes", .arr [.str "a"])] [.str "a"]
      (.str "a") (List.mem_singleton.mpr rfl) rfl rfl).1,
   (c2_noninteger_element_fails [("errorCodes", .arr [.str "a"])] [.str "a"]
      (.str "a") (List.mem_singleton.mpr rfl) rfl rfl).2.2⟩

/-- Claim C2 counterexample to the unrestricted statement: a JSON null
element is not an integer, yet the decode succeeds (null is a decoding
no-op into an `int` slot, which stays 0) instead of failing. -/
theorem c2_noninteger_element_fails_cex :
    ErrorCodes.unmarshalJSON (.arr [.null]) = .ok [⟨0⟩] := rfl

/-- Claim C10: `ErrorCodes.UnmarshalJSON` is atomic in its receiver — when
decoding fails, the receiver is left completely unchanged, because the
assignment happens only after the integer parse has fully succeeded. -/
theorem c10_receiver_atomic (e : ErrorCodes) (b : JValue) (err : String)
    (h : (ErrorCodes.unmarshalJSONInto e b).2 = some err) :
    (ErrorCodes.unmarshalJSONInto e b).1 = e := by
  cases hd : decodeGoIntArray b with
  | error e2 =>
    unfold ErrorCodes.unmarshalJSONInto
    rw [hd]
  | ok l =>
    have hnone : (ErrorCodes.unmarshalJSONInto e b).2 = none := by
      unfold ErrorCodes.unmarshalJSONInto
      rw [hd]
    rw [hnone] at h
    cases h

/-- Claim C10 witness: a failed decode of the string "a" leaves a
previously populated receiver untouched. -/
theorem c10_receiver_atomic_witness :
    (ErrorCodes.unmarshalJSONInto ([⟨5⟩] : List ErrorCode) (.str "a")).2 =
      some "json: cannot unmarshal value into int slice" ∧
    (ErrorCodes.unmarshalJSONInto ([⟨5⟩] : List ErrorCode) (.str "a")).1 =
      [⟨5⟩] :=
  ⟨rfl, c10_receiver_atomic ([⟨5⟩] : List ErrorCode) (.str "a")
    "json: cannot unmarshal value into int slice" rfl⟩

/-- Claim C3: when the request's transport mode resolves to the token
"invalid" or "unspecified", `Routes` returns the validation error
immediately and the transport collaborator's NewRequest and Do are never
invoked (the transport-call trace is empty). -/
theorem c3_invalid_mode_no_network {ρ : Type} (s : RoutingService ρ)
    (req : RoutesRequest)
    (h : req.transportMode.String = invalid ∨
      req.transportMode.String = unspecified) :
    s.Routes req = (.error "invalid transportmode", []) := by
  simp only [RoutingService.Routes]
  rw [if_pos h]

def req3w : RoutesRequest := ⟨⟨"invalid"⟩, ⟨0, 0⟩, ⟨0, 0⟩⟩

def svc3w : RoutingService Unit :=
  ⟨fun _ => .ok "https://router.hereapi.com/v8/routes",
   ⟨fun _ _ _ => .ok (), fun _ => .ok RoutesResponse.zero⟩⟩

/-- Claim C3 witness: a request resolving to the token "invalid" against a
live-looking collaborator yields the validation error and an empty trace. -/
theorem c3_invalid_mode_no_network_witness :
    svc3w.Routes req3w = (.error "invalid transportmode", []) :=
  c3_invalid_mode_no_network svc3w req3w (Or.inl rfl)

def rat15 : Rat := ⟨3, 2, by decide, by decide⟩

def rat25 : Rat := ⟨5, 2, by decide, by decide⟩

def req4w : RoutesRequest := ⟨⟨"car"⟩, ⟨rat15, rat25⟩, ⟨3, 4⟩⟩

/-- Claim C4: the query value set built by `Routes` maps origin and
destination to "Lat,Long" in the coordinates' native decimal representation
and always contains the fixed pairs alternatives=6, currency=EUR,
transportMode=token, the fixed return attribute list and the fixed spans
attribute list; at origin (1.5, 2.5) and destination (3, 4) the rendered
pairs are origin=1.5,2.5 and destination=3,4. -/
theorem c4_query_values (tm : String) (req : RoutesRequest) :
    (routesQueryValues tm req).lookup "origin" =
      some (formatGoFloat req.origin.lat ++ "," ++ formatGoFloat req.origin.long) ∧
    (routesQueryValues tm req).lookup "destination" =
      some (formatGoFloat req.destination.lat ++ "," ++
        formatGoFloat req.destination.long) ∧
    (routesQueryValues tm req).lookup "alternatives" = some "6" ∧
    (routesQueryValues tm req).lookup "currency" = some "EUR" ∧
    (routesQueryValues tm req).lookup "transportMode" = some tm ∧
    (routesQueryValues tm req).lookup "return" =
      some "summary,polyline,elevation,actions,instructions,travelSummary,tolls,incidents" ∧
    (routesQueryValues tm req).lookup "spans" =
      some "length,duration,maxSpeed,speedLimit,incidents,notices" ∧
    (routesQueryValues "car" req4w).lookup "origin" = some "1.5,2.5" ∧
    (routesQueryValues "car" req4w).lookup "destination" = some "3,4" :=
  ⟨rfl, rfl, rfl, rfl, rfl, rfl, rfl, rfl, rfl⟩

/-- Claim C7: a base-URL parse error is propagated exactly as the URL
parser returned it (with no transport call made), a NewRequest error is
wrapped with the message "unable to create get request", and a Do error is
returned as-is; an error result is the whole result — no partial response
exists alongside it. -/
theorem c7_error_propagation {ρ : Type} (s : RoutingService ρ)
    (req : RoutesRequest) (e : String)
    (h1 : req.transportMode.String ≠ invalid)
    (h2 : req.transportMode.String ≠ unspecified) :
    (s.urlParse "routes" = .error e → s.Routes req = (.error e, [])) ∧
    (∀ u, s.urlParse "routes" = .ok u →
      s.client.NewRequest u "GET"
          (encodeQuery (routesQueryValues req.transportMode.String req)) =
        .error e →
      (s.Routes req).1 = .error ("unable to create get request: " ++ e)) ∧
    (∀ u r, s.urlParse "routes" = .ok u →
      s.client.NewRequest u "GET"
          (encodeQuery (routesQueryValues req.transportMode.String req)) =
        .ok r →
      s.client.Do r = .error e →
      (s.Routes req).1 = .error e) := by
  have hcond : ¬(req.transportMode.String = invalid ∨
      req.transportMode.String = unspecified) :=
    fun hc => hc.elim h1 h2
  refine ⟨?_, ?_, ?_⟩
  · intro hu
    simp only [RoutingService.Routes, if_neg hcond, hu]
  · intro u hu hn
    simp only [RoutingService.Routes, if_neg hcond, hu, hn]
  · intro u r hu hn hd
    simp only [RoutingService.Routes, if_neg hcond, hu, hn, hd]

def req7w : RoutesRequest := ⟨⟨"car"⟩, ⟨1, 2⟩, ⟨3, 4⟩⟩

def svc7a : RoutingService Unit :=
  ⟨fun _ => .error "parse boom",
   ⟨fun _ _ _ => .ok (), fun _ => .ok RoutesResponse.zero⟩⟩

def svc7b : RoutingService Unit :=
  ⟨fun _ => .ok "u",
   ⟨fun _ _ _ => .error "req boom", fun _ => .ok RoutesResponse.zero⟩⟩

def svc7c : RoutingService Unit :=
  ⟨fun _ => .ok "u", ⟨fun _ _ _ => .ok (), fun _ => .error "do boom"⟩⟩

/-- Claim C7 witness: the three failure shapes at concrete collaborators —
URL parse failure propagated verbatim with no transport call, NewRequest
failure wrapped with context, Do failure returned as-is. -/
theorem c7_error_propagation_witness :
    svc7a.Routes req7w = (.error "parse boom", []) ∧
    (svc7b.Routes req7w).1 =
      .error ("unable to create get request: " ++ "req boom") ∧
    (svc7c.Routes req7w).1 = .error "do boom" :=
  ⟨(c7_error_propagation svc7a req7w "parse boom" (by decide) (by decide)).1
      rfl,
   (c7_error_propagation svc7b req7w "req boom" (by decide) (by decide)).2.1
      "u" rfl rfl,
   (c7_error_propagation svc7c req7w "do boom" (by decide) (by decide)).2.2
      "u" () rfl rfl rfl⟩

def mJ5 : JValue :=
  .obj [("numOrigins", .num 2), ("numDestinations", .num 3),
        ("travelTimes", .arr [.num 1])]

/-- Claim C5 counterexample: a wire object with numOrigins=2,
numDestinations=3 and a one-element travelTimes array decodes successfully
— the decoder does not enforce the numOrigins × numDestinations length. -/
theorem c5_matrix_decode_cex :
    decodeMatrixResponse mJ5 = .ok ⟨2, 3, [1], [], []⟩ ∧
    ((⟨2, 3, [1], [], []⟩ : MatrixResponse).travelTimes.length : Int) ≠
      (⟨2, 3, [1], [], []⟩ : MatrixResponse).numOrigins *
        (⟨2, 3, [1], [], []⟩ : MatrixResponse).numDestinations :=
  ⟨rfl, by decide⟩

/-- Claim C5, amended: decoding enforces no length relation — a present
travelTimes array decodes to exactly the wire elements in order, whatever
their number; an absent travelTimes decodes successfully to the empty
collection rather than failing. -/
theorem c5_matrix_decode_exact (nO nD : Int) (ts : List Int)
    (hO : int64Min ≤ nO ∧ nO ≤ int64Max)
    (hD : int64Min ≤ nD ∧ nD ≤ int64Max)
    (hts : ∀ x ∈ ts, int32Min ≤ x ∧ x ≤ int32Max) :
    decodeMatrixResponse (.obj [("numOrigins", .num (nO : Rat)),
        ("numDestinations", .num (nD : Rat)),
        ("travelTimes", .arr (jIntArr ts))]) = .ok ⟨nO, nD, ts, [], []⟩ ∧
    decodeMatrixResponse (.obj [("numOrigins", .num (nO : Rat)),
        ("numDestinations", .num (nD : Rat))]) = .ok ⟨nO, nD, [], [], []⟩ := by
  constructor
  · have e1 : decodeMatrixResponse (.obj [("numOrigins", .num (nO : Rat)),
        ("numDestinations", .num (nD : Rat)),
        ("travelTimes", .arr (jIntArr ts))]) =
      (decodeGoInt (.num (nO : Rat)) >>= fun no =>
       decodeGoInt (.num (nD : Rat)) >>= fun nd =>
       mapME decodeGoInt32 (jIntArr ts) >>= fun tt =>
       Except.ok [] >>= fun di =>
       Except.ok [] >>= fun ec =>
       pure ⟨no, nd, tt, di, ec⟩) := rfl
    rw [e1]
    simp only [decodeGoInt_intCast nO hO.1 hO.2, decodeGoInt_intCast nD hD.1 hD.2,
      mapME_decodeGoInt32 ts hts, exceptBind_ok]
    rfl
  · have e2 : decodeMatrixResponse (.obj [("numOrigins", .num (nO : Rat)),
        ("numDestinations", .num (nD : Rat))]) =
      (decodeGoInt (.num (nO : Rat)) >>= fun no =>
       decodeGoInt (.num (nD : Rat)) >>= fun nd =>
       Except.ok [] >>= fun tt =>
       Except.ok [] >>= fun di =>
       Except.ok [] >>= fun ec =>
       pure ⟨no, nd, tt, di, ec⟩) := rfl
    rw [e2]
    simp only [decodeGoInt_intCast nO hO.1 hO.2, decodeGoInt_intCast nD hD.1 hD.2,
      exceptBind_ok]
    rfl

/-- Claim C5 witness at numOrigins=2, numDestinations=3 with the
one-element array [1], and with travelTimes absent. -/
theorem c5_matrix_decode_exact_witness :
    decodeMatrixResponse (.obj [("numOrigins", .num ((2 : Int) : Rat)),
        ("numDestinations", .num ((3 : Int) : Rat)),
        ("travelTimes", .arr (jIntArr [1]))]) = .ok ⟨2, 3, [1], [], []⟩ ∧
    decodeMatrixResponse (.obj [("numOrigins", .num ((2 : Int) : Rat)),
        ("numDestinations", .num ((3 : Int) : Rat))]) = .ok ⟨2, 3, [], [], []⟩ :=
  c5_matrix_decode_exact 2 3 [1] (by decide) (by decide) (by decide)

def body6 : JValue :=
  .obj [("routes", .arr [.obj [("id", .str "r1"), ("sections", .arr [])]]),
        ("errorCodes", .arr [.num 0])]

def req6w : RoutesRequest := ⟨⟨"car"⟩, ⟨1, 2⟩, ⟨3, 4⟩⟩

def svc6 : RoutingService Unit :=
  ⟨fun _ => .ok "https://router.hereapi.com/v8/routes",
   ⟨fun _ _ _ => .ok (), fun _ => decodeRoutesResponse body6⟩⟩

/-- Claim C6: with the transport collaborator filling the response from the
body containing one route of id "r1" with empty sections and errorCodes
[0], `Routes` returns exactly one Route with ID "r1", an empty Sections
sequence, and ErrorCodes equal to the one-element sequence
[ErrorCodeSuccess]. -/
theorem c6_end_to_end :
    (svc6.Routes req6w).1 = .ok ⟨[⟨"r1", []⟩], [ErrorCodeSuccess]⟩ := rfl

def notice8 : Notice := ⟨"t", "c", "s", [⟨"weight", "because", 5⟩]⟩

/-- Claim C8 failing input: encoding a populated Notice emits the wire key
"Details" (the struct tag is misspelled "jsopn", so encoding/json falls
back to the Go field name) — while the data model names the wire field
"details", which the encoder never emits; decoding from the key "details"
still works only through the decoder's case-insensitive fallback. -/
theorem c8_details_field_misnamed :
    lookupExact (jFields (encodeNotice notice8)) "details" = none ∧
    lookupExact (jFields (encodeNotice notice8)) "Details" =
      some (.arr [encodeNoticeDetail ⟨"weight", "because", 5⟩]) ∧
    decodeNotice (.obj [("details", .arr [.obj [("cause", .str "x")]])]) =
      .ok ⟨"", "", "", [⟨"", "x", 0⟩]⟩ :=
  ⟨rfl, rfl, rfl⟩

def sectionFieldKeys : List String :=
  ["id", "type", "departure", "arrival", "summary", "travelSummary",
   "polyline", "spans", "notices", "language", "transport", "incidents",
   "tolls", "tollSystems"]

def matrixFieldKeys : List String :=
  ["numOrigins", "numDestinations", "travelTimes", "distances", "errorCodes"]

/-- Claim C9: every entity other than ErrorCodes decodes by direct
structural field-for-field mapping, and a wire object with named fields
absent still decodes successfully, leaving each corresponding attribute at
its zero value: the empty object decodes to the zero value of every entity,
and (for Section and MatrixResponse) any object none of whose keys matches
a named field — unknown extra fields included — decodes to the zero value
rather than failing. -/
theorem c9_absent_fields_zero :
    decodeGeoWaypoint (.obj []) = .ok GeoWaypoint.zero ∧
    decodePrice (.obj []) = .ok Price.zero ∧
    decodeFare (.obj []) = .ok Fare.zero ∧
    decodeTollCollectionLocation (.obj []) = .ok TollCollectionLocation.zero ∧
    decodeToll (.obj []) = .ok Toll.zero ∧
    decodeTollSystem (.obj []) = .ok TollSystem.zero ∧
    decodeNoticeDetail (.obj []) = .ok NoticeDetail.zero ∧
    decodeNotice (.obj []) = .ok Notice.zero ∧
    decodeTransport (.obj []) = .ok Transport.zero ∧
    decodeIncident (.obj []) = .ok Incident.zero ∧
    decodePlace (.obj []) = .ok Place.zero ∧
    decodeRoutePlace (.obj []) = .ok RoutePlace.zero ∧
    decodeSpan (.obj []) = .ok Span.zero ∧
    decodeSummary (.obj []) = .ok Summary.zero ∧
    decodeSection (.obj []) = .ok Section.zero ∧
    decodeRoute (.obj []) = .ok Route.zero ∧
    decodeRoutesResponse (.obj []) = .ok RoutesResponse.zero ∧
    decodeMatrixResponse (.obj []) = .ok MatrixResponse.zero ∧
    decodeCalculateMatrixResponse (.obj []) = .ok CalculateMatrixResponse.zero ∧
    decodeHereErrorResponse (.obj []) = .ok HereErrorResponse.zero ∧
    (∀ fs, (∀ k ∈ sectionFieldKeys, lookupField fs k = none) →
      decodeSection (.obj fs) = .ok Section.zero) ∧
    (∀ fs, (∀ k ∈ matrixFieldKeys, lookupField fs k = none) →
      decodeMatrixResponse (.obj fs) = .ok MatrixResponse.zero) := by
  refine ⟨rfl, rfl, rfl, rfl, rfl, rfl, rfl, rfl, rfl, rfl, rfl, rfl, rfl,
    rfl, rfl, rfl, rfl, rfl, rfl, rfl, ?_, ?_⟩
  · intro fs h
    have h' : ∀ k, k ∈ sectionFieldKeys → ∀ {α : Type}
        (dec : JValue → Except String α) (z : α),
        decodeField dec z fs k = .ok z :=
      fun k hk _ dec z => decodeField_of_absent dec z fs k (h k hk)
    simp only [decodeSection,
      h' "id" (by decide), h' "type" (by decide), h' "departure" (by decide),
      h' "arrival" (by decide), h' "summary" (by decide),
      h' "travelSummary" (by decide), h' "polyline" (by decide),
      h' "spans" (by decide), h' "notices" (by decide),
      h' "language" (by decide), h' "transport" (by decide),
      h' "incidents" (by decide), h' "tolls" (by decide),
      h' "tollSystems" (by decide), exceptBind_ok]
    rfl
  · intro fs h
    have h' : ∀ k, k ∈ matrixFieldKeys → ∀ {α : Type}
        (dec : JValue → Except String α) (z : α),
        decodeField dec z fs k = .ok z :=
      fun k hk _ dec z => decodeField_of_absent dec z fs k (h k hk)
    simp only [decodeMatrixResponse,
      h' "numOrigins" (by decide), h' "numDestinations" (by decide),
      h' "travelTimes" (by decide), h' "distances" (by decide),
      decodeErrorCodesField_of_absent fs "errorCodes"
        (h "errorCodes" (by decide)),
      exceptBind_ok]
    rfl

/-- Claim C9 witness: objects holding only an unknown field decode to the
zero Section and the zero MatrixResponse. -/
theorem c9_absent_fields_zero_witness :
    decodeSection (.obj [("unknownField", .bool true)]) = .ok Section.zero ∧
    decodeMatrixResponse (.obj [("unknownField", .bool true)]) =
      .ok MatrixResponse.zero :=
  ⟨c9_absent_fields_zero.2.2.2.2.2.2.2.2.2.2.2.2.2.2.2.2.2.2.2.2.1
      [("unknownField", .bool true)] (by intro k hk; fin_cases hk <;> rfl),
   c9_absent_fields_zero.2.2.2.2.2.2.2.2.2.2.2.2.2.2.2.2.2.2.2.2.2
      [("unknownField", .bool true)] (by intro k hk; fin_cases hk <;> rfl)⟩
